import Mathlib

/-!
# The `watch` subcommand of collector (`cmd/watch.go`)

A shallow embedding of `runWatcher`: the function that reads a health-check
report from standard input, resolves the hosted zone, and for every configured
domain compares the observed addresses with the published "A" record, issuing
an UPSERT and a Slack notification when they differ.

The Route 53 client and the `collectorlib` package are collaborators of
`runWatcher`.  Their behaviour is a parameter of the embedding (`Route53`,
`Collectorlib`); every call `runWatcher` makes to the record store or to the
notifier is recorded, in order, in a trace of `Event`s, and the answers of the
collaborators may depend on the calls made so far.  Logger calls have no effect on
control flow and are not recorded.

The AWS SDK represents every member as a pointer.  Members that the Route 53
API declares as required (`HostedZone.Name`, `HostedZone.Id`,
`ResourceRecordSet.Name`, `ResourceRecordSet.Type`, `ResourceRecord.Value`) are
embedded as plain values; the optional `TTL` is an `Option`.
-/

namespace Collector

/-! ## Route 53 data (`github.com/aws/aws-sdk-go/service/route53`) -/

/-- The hosted zone description returned by the zone listing. -/
structure HostedZone where
  Name : String
  Id : String
deriving DecidableEq, Repr

/-- The request of `ListHostedZonesByName`. -/
structure ListHostedZonesByNameInput where
  DNSName : String
deriving DecidableEq, Repr

/-- The response of `ListHostedZonesByName`. -/
structure ListHostedZonesByNameOutput where
  HostedZones : List HostedZone
deriving DecidableEq, Repr

/-- One value of a record set. -/
structure ResourceRecord where
  Value : String
deriving DecidableEq, Repr

/-- A record set; `Type_` is the SDK member `Type`. -/
structure ResourceRecordSet where
  Name : String
  Type_ : String
  ResourceRecords : List ResourceRecord
  TTL : Option Int
deriving DecidableEq, Repr

/-- The request of `ListResourceRecordSets`. -/
structure ListResourceRecordSetsInput where
  HostedZoneId : String
  StartRecordName : String
  StartRecordType : String
deriving DecidableEq, Repr

/-- The response of `ListResourceRecordSets`. -/
structure ListResourceRecordSetsOutput where
  ResourceRecordSets : List ResourceRecordSet
deriving DecidableEq, Repr

/-- One change of a change batch. -/
structure Change where
  Action : String
  ResourceRecordSet : ResourceRecordSet
deriving DecidableEq, Repr

/-- The batch of changes carried by a `ChangeResourceRecordSets` request. -/
structure ChangeBatch where
  Changes : List Change
  Comment : String
deriving DecidableEq, Repr

/-- The request of `ChangeResourceRecordSets`. -/
structure ChangeResourceRecordSetsInput where
  ChangeBatch : ChangeBatch
  HostedZoneId : String
deriving DecidableEq, Repr

/-- The response of `ChangeResourceRecordSets`; `runWatcher` only logs it. -/
structure ChangeResourceRecordSetsOutput where
  ChangeInfo : String
deriving DecidableEq, Repr

/-! ## `collectorlib` data -/

/-- Modelled from the spec: the `collectorlib` type of a configured domain
(`Domain: {fqdn, tag}`); `runWatcher` reads its members `FQDN` and `Tag`. -/
structure Domain where
  FQDN : String
  Tag : String
deriving DecidableEq, Repr

/-- Modelled from the spec: one `(tag, address)` pair of the parsed report
(`Observation: {tag, address}`), a `collectorlib` type. -/
structure Observation where
  tag : String
  address : String
deriving DecidableEq, Repr

/-- Modelled from the spec: the `collectorlib` type `Request` (the spec's
`CheckReport`: the target check identifier and the full list of observations);
`runWatcher` writes its member `TargetCheckID`. -/
structure Request where
  TargetCheckID : String
  Observations : List Observation
deriving DecidableEq, Repr

/-- Modelled from the spec: the `collectorlib` type `Diff` (the spec's
`DiffResult` without its derived member `changed`, which the code obtains from
`IsChanged`). -/
structure Diff where
  Added : List String
  Removed : List String
deriving DecidableEq, Repr

/-! ## Collaborators -/

/-- A call made by `runWatcher` to the record store or to the notifier. -/
inductive Event where
  | ListHostedZonesByName (p1 : ListHostedZonesByNameInput)
  | ListResourceRecordSets (p2 : ListResourceRecordSetsInput)
  | ChangeResourceRecordSets (p3 : ChangeResourceRecordSetsInput)
  | NotifyToSlack (fqdn : String) (diff : Diff)
deriving DecidableEq, Repr

/-- The Route 53 client `svc`.  The per-domain operations answer as a function
of the calls made before them. -/
structure Route53 where
  ListHostedZonesByName :
    ListHostedZonesByNameInput → Except String ListHostedZonesByNameOutput
  ListResourceRecordSets :
    List Event → ListResourceRecordSetsInput → Except String ListResourceRecordSetsOutput
  ChangeResourceRecordSets :
    List Event → ChangeResourceRecordSetsInput → Except String ChangeResourceRecordSetsOutput

/-- The functions of package `collectorlib` that `runWatcher` calls. -/
structure Collectorlib where
  ParseRequest : List UInt8 → Except String Request
  NewDomains : List String → Except String (List Domain)
  IPsByTag : Request → String → List String
  NewDiff : List String → List String → Diff
  IsChanged : Diff → Bool
  NotifyToSlack : List Event → String → Diff → Except String Unit

/-- Everything a run of `runWatcher` depends on: the package variables
`hostedZone`, `checkID` and `domains`, the bytes available on standard input,
and the two collaborators. -/
structure Env where
  hostedZone : String
  checkID : String
  domains : List String
  stdin : List UInt8
  lib : Collectorlib
  svc : Route53

/-! ## `runWatcher` -/

/-- Lines 90-95: the zone whose name is `hostedZone + "."`; the loop does not
stop at a match, so the last matching zone is kept. -/
def findTarget (hostedZone : String) (zones : List HostedZone) : Option HostedZone :=
  zones.foldl (fun target z => if z.Name = hostedZone ++ "." then some z else target) none

/-- Lines 119-123: the lookup request `p2`. -/
def lookupInput (target : HostedZone) (domain : Domain) : ListResourceRecordSetsInput :=
  { HostedZoneId := target.Id
    StartRecordName := domain.FQDN ++ "."
    StartRecordType := "A" }

/-- Lines 118 and 129-136: `oldIPs`, built by appending the values of the first
record set when its type is "A". -/
def existingIPs (sets : List ResourceRecordSet) : List String :=
  match sets with
  | [] => []
  | rrset :: _ =>
    if rrset.Type_ = "A" then
      rrset.ResourceRecords.foldl (fun oldIPs rr => oldIPs ++ [rr.Value]) []
    else
      []

/-- Lines 141-146: `rrs`, one record per element of `ips`. -/
def recordsOf (ips : List String) : List ResourceRecord :=
  ips.foldl (fun rrs ip => rrs ++ [{ Value := ip }]) []

/-- Lines 147-163: the write request `p3`. -/
def upsertInput (target : HostedZone) (domain : Domain) (ips : List String) :
    ChangeResourceRecordSetsInput :=
  { ChangeBatch :=
      { Changes :=
          [{ Action := "UPSERT"
             ResourceRecordSet :=
               { Name := domain.FQDN ++ "."
                 Type_ := "A"
                 ResourceRecords := recordsOf ips
                 TTL := some 60 } }]
        Comment := "Update via collector" }
    HostedZoneId := target.Id }

/-- Lines 140-174: what the loop body does once `diff` is known.  The first
component is `some code` when the body executes `return code` and `none` when
the loop goes on; the second lists the calls made by this part of the body.
`tr` is the trace of the calls made before it. -/
def applyDiff (env : Env) (target : HostedZone) (tr : List Event) (domain : Domain)
    (ips : List String) (diff : Diff) : Option Int × List Event :=
  if env.lib.IsChanged diff then
    let p3 := upsertInput target domain ips
    match env.svc.ChangeResourceRecordSets tr p3 with
    | .error _ => (some (-1), [Event.ChangeResourceRecordSets p3])
    | .ok _ =>
      let _notified := env.lib.NotifyToSlack (tr ++ [Event.ChangeResourceRecordSets p3])
        domain.FQDN diff
      (none, [Event.ChangeResourceRecordSets p3, Event.NotifyToSlack domain.FQDN diff])
  else
    (none, [])

/-- Lines 110-174: the body of the loop over `domainModels` for one domain,
with `tr` the trace of the calls made before it.  The result has the shape of
`applyDiff`. -/
def handleDomain (env : Env) (req : Request) (target : HostedZone) (tr : List Event)
    (domain : Domain) : Option Int × List Event :=
  let ips := env.lib.IPsByTag req domain.Tag
  if ips.length = 0 then
    (none, [])
  else
    let p2 := lookupInput target domain
    match env.svc.ListResourceRecordSets tr p2 with
    | .error _ => (some (-1), [Event.ListResourceRecordSets p2])
    | .ok r2 =>
      let oldIPs := existingIPs r2.ResourceRecordSets
      let diff := env.lib.NewDiff oldIPs ips
      let rest := applyDiff env target (tr ++ [Event.ListResourceRecordSets p2]) domain ips diff
      (rest.1, Event.ListResourceRecordSets p2 :: rest.2)

/-- Lines 109-177: the loop over `domainModels` and the final `return 0`.
The result is the returned code and the whole trace. -/
def domainLoop (env : Env) (req : Request) (target : HostedZone) :
    List Domain → List Event → Int × List Event
  | [], tr => (0, tr)
  | domain :: rest, tr =>
    match handleDomain env req target tr domain with
    | (some code, evs) => (code, tr ++ evs)
    | (none, evs) => domainLoop env req target rest (tr ++ evs)

/-- Lines 75-77: the check identifier override. -/
def overrideCheckID (checkID : String) (req : Request) : Request :=
  if checkID ≠ "" then { req with TargetCheckID := checkID } else req

/-- The function `runWatcher` (lines 59-178): the returned code and the trace
of the calls made to the record store and to the notifier. -/
def runWatcher (env : Env) : Int × List Event :=
  match env.stdin with
  | [] => (-1, [])
  | _ :: _ =>
    match env.lib.ParseRequest env.stdin with
    | .error _ => (-1, [])
    | .ok parsed =>
      let req := overrideCheckID env.checkID parsed
      let p1 : ListHostedZonesByNameInput := { DNSName := env.hostedZone }
      match env.svc.ListHostedZonesByName p1 with
      | .error _ => (-1, [Event.ListHostedZonesByName p1])
      | .ok resp =>
        match findTarget env.hostedZone resp.HostedZones with
        | none => (-1, [Event.ListHostedZonesByName p1])
        | some target =>
          match env.lib.NewDomains env.domains with
          | .error _ => (-1, [Event.ListHostedZonesByName p1])
          | .ok domainModels =>
            domainLoop env req target domainModels [Event.ListHostedZonesByName p1]

/-! ## `collectorlib` as the specification describes it -/

/-- Modelled from the spec: `Request.IPsByTag` of `collectorlib` ("select
observations whose tag equals the domain's tag; extract their addresses"). -/
def specIPsByTag (req : Request) (tag : String) : List String :=
  (req.Observations.filter (fun o => o.tag = tag)).map (fun o => o.address)

/-- Modelled from the spec: `NewDiff` of `collectorlib` (`added` = observed −
existing, `removed` = existing − observed, both with duplicates collapsed and
in the order of the input they are taken from). -/
def specNewDiff (existing observed : List String) : Diff :=
  { Added := (observed.filter (fun a => a ∉ existing)).dedup
    Removed := (existing.filter (fun a => a ∉ observed)).dedup }

/-- Modelled from the spec: `Diff.IsChanged` of `collectorlib` (`changed` is
true iff `added` or `removed` is non-empty). -/
def specIsChanged (diff : Diff) : Bool :=
  !diff.Added.isEmpty || !diff.Removed.isEmpty

/-! ## Concrete runs -/

/-- A `collectorlib` whose differ and tag selection are the ones the
specification describes, whose parser and domain builder give the stated
outcomes, and whose notifier succeeds. -/
def scenarioLib (report : Except String Request) (models : Except String (List Domain)) :
    Collectorlib :=
  { ParseRequest := fun _ => report
    NewDomains := fun _ => models
    IPsByTag := specIPsByTag
    NewDiff := specNewDiff
    IsChanged := specIsChanged
    NotifyToSlack := fun _ _ _ => .ok () }

/-- A record store holding the zone `example.com.` with identifier `Z1`, whose
lookups return `sets` and whose writes give the outcome `write`. -/
def scenarioSvc (sets : List ResourceRecordSet)
    (write : Except String ChangeResourceRecordSetsOutput) : Route53 :=
  { ListHostedZonesByName := fun _ => .ok { HostedZones := [{ Name := "example.com.", Id := "Z1" }] }
    ListResourceRecordSets := fun _ _ => .ok { ResourceRecordSets := sets }
    ChangeResourceRecordSets := fun _ _ => write }

/-- The zone of `scenarioSvc`. -/
def zoneZ1 : HostedZone := { Name := "example.com.", Id := "Z1" }

/-- The domain `a.example.com` tagged `svc-a`. -/
def domainA : Domain := { FQDN := "a.example.com", Tag := "svc-a" }

/-- The domain `b.example.com` tagged `svc-b`. -/
def domainB : Domain := { FQDN := "b.example.com", Tag := "svc-b" }

/-- The published record of `a.example.com` with the single value `1.2.3.4`. -/
def recordA : ResourceRecordSet :=
  { Name := "a.example.com.", Type_ := "A", ResourceRecords := [{ Value := "1.2.3.4" }],
    TTL := some 60 }

/-- A run with a one-byte input, zone `example.com`, the given parsed report,
domain models and record store. -/
def scenarioEnv (report : Request) (models : List Domain) (svc : Route53) : Env :=
  { hostedZone := "example.com"
    checkID := ""
    domains := models.map (fun d => d.FQDN)
    stdin := [123]
    lib := scenarioLib (.ok report) (.ok models)
    svc := svc }

/-- The report of scenario 1: `1.2.3.4` listed twice for `svc-a`. -/
def reportDup : Request :=
  { TargetCheckID := "", Observations := [⟨"svc-a", "1.2.3.4"⟩, ⟨"svc-a", "1.2.3.4"⟩] }

/-- The report of scenario 2: `1.2.3.4` and `5.6.7.8` listed for `svc-a`. -/
def reportTwo : Request :=
  { TargetCheckID := "", Observations := [⟨"svc-a", "1.2.3.4"⟩, ⟨"svc-a", "5.6.7.8"⟩] }

/-- The answer of the zone listing in every scenario. -/
def listZonesCall : Event := Event.ListHostedZonesByName { DNSName := "example.com" }

/-- The lookup of `a.example.com` in zone `Z1`. -/
def lookupA : Event :=
  Event.ListResourceRecordSets
    { HostedZoneId := "Z1", StartRecordName := "a.example.com.", StartRecordType := "A" }

/-- The complete replacement of the "A" record of `a.example.com` by `values`. -/
def upsertA (values : List String) : Event :=
  Event.ChangeResourceRecordSets
    { ChangeBatch :=
        { Changes :=
            [{ Action := "UPSERT"
               ResourceRecordSet :=
                 { Name := "a.example.com."
                   Type_ := "A"
                   ResourceRecords := values.map (fun v => { Value := v })
                   TTL := some 60 } }]
          Comment := "Update via collector" }
      HostedZoneId := "Z1" }

/-- End-to-end scenario 1: the report lists `1.2.3.4` twice for `svc-a` and the
store already publishes `1.2.3.4`. -/
def scenario1 : Env :=
  scenarioEnv reportDup [domainA] (scenarioSvc [recordA] (.ok { ChangeInfo := "PENDING" }))

/-- End-to-end scenario 2: the report lists `1.2.3.4` and `5.6.7.8` for `svc-a`
and the store publishes `1.2.3.4`. -/
def scenario2 : Env :=
  scenarioEnv reportTwo [domainA] (scenarioSvc [recordA] (.ok { ChangeInfo := "PENDING" }))

/-- A run over `b.example.com`, for whose tag the report has no observation,
followed by `a.example.com`. -/
def scenarioSkip : Env :=
  scenarioEnv reportTwo [domainB, domainA]
    (scenarioSvc [recordA] (.ok { ChangeInfo := "PENDING" }))

/-- A report with observations for `svc-a` and for `svc-b`. -/
def reportBoth : Request :=
  { TargetCheckID := ""
    Observations := [⟨"svc-a", "1.2.3.4"⟩, ⟨"svc-a", "5.6.7.8"⟩, ⟨"svc-b", "9.9.9.9"⟩] }

/-- End-to-end scenario 4: two domains, both with observations differing from
the published record, and a record store that refuses every write. -/
def scenarioWriteFails : Env :=
  scenarioEnv reportBoth [domainA, domainB] (scenarioSvc [recordA] (.error "write refused"))

/-- End-to-end scenario 3: scenario 1 with nothing on standard input. -/
def scenarioEmptyInput : Env :=
  { scenario1 with stdin := [] }

/-- A run whose one-byte input `ParseRequest` rejects. -/
def scenarioMalformed : Env :=
  { scenario1 with lib := scenarioLib (.error "unexpected end of JSON input") (.ok [domainA]) }

/-- A second record set of type "A", with the value `7.7.7.7`. -/
def recordExtra : ResourceRecordSet :=
  { Name := "b.example.com.", Type_ := "A", ResourceRecords := [{ Value := "7.7.7.7" }],
    TTL := some 300 }

/-- A record set of type "CNAME". -/
def recordAlias : ResourceRecordSet :=
  { Name := "a.example.com.", Type_ := "CNAME",
    ResourceRecords := [{ Value := "origin.example.com." }], TTL := some 300 }

/-- Scenario 1 with a store whose lookups return `recordA` followed by
`recordExtra`. -/
def scenarioTwoSets : Env :=
  scenarioEnv reportDup [domainA]
    (scenarioSvc [recordA, recordExtra] (.ok { ChangeInfo := "PENDING" }))

/-- The report of scenario 2 with its two observations in the other order. -/
def reportTwoSwapped : Request :=
  { TargetCheckID := "", Observations := [⟨"svc-a", "5.6.7.8"⟩, ⟨"svc-a", "1.2.3.4"⟩] }

/-- The report of scenario 1 against a store that publishes no record. -/
def scenarioDupNew : Env :=
  scenarioEnv reportDup [domainA] (scenarioSvc [] (.ok { ChangeInfo := "PENDING" }))

/-- The report of scenario 2, observations swapped, against a store that
publishes no record. -/
def scenarioSwappedNew : Env :=
  scenarioEnv reportTwoSwapped [domainA] (scenarioSvc [] (.ok { ChangeInfo := "PENDING" }))

/-- The report of scenario 2 against a store that publishes no record. -/
def scenarioTwoNew : Env :=
  scenarioEnv reportTwo [domainA] (scenarioSvc [] (.ok { ChangeInfo := "PENDING" }))

/-! ## Trace predicates and derived runs -/

/-- The event is a record-store write. -/
def Event.isWrite : Event → Bool
  | .ChangeResourceRecordSets _ => true
  | _ => false

/-- The event is a notification. -/
def Event.isNotify : Event → Bool
  | .NotifyToSlack _ _ => true
  | _ => false

/-- The event is a per-domain record lookup. -/
def Event.isLookup : Event → Bool
  | .ListResourceRecordSets _ => true
  | _ => false

/-- A write event carries at least one address in every change; other events
satisfy this vacuously. -/
def Event.carriesAddresses : Event → Bool
  | .ChangeResourceRecordSets p3 =>
    p3.ChangeBatch.Changes.all (fun c => !c.ResourceRecordSet.ResourceRecords.isEmpty)
  | _ => true

/-- The record-store call `ev`, made after the calls `hist`, was answered
without error.  Notifications count as answered: their outcome is not read. -/
def callSucceeded (svc : Route53) (hist : List Event) : Event → Bool
  | .ListHostedZonesByName p1 => (svc.ListHostedZonesByName p1).toBool
  | .ListResourceRecordSets p2 => (svc.ListResourceRecordSets hist p2).toBool
  | .ChangeResourceRecordSets p3 => (svc.ChangeResourceRecordSets hist p3).toBool
  | .NotifyToSlack _ _ => true

/-- Every call of `evs`, made in order after the calls `hist`, was answered
without error. -/
def callsSucceeded (svc : Route53) : List Event → List Event → Bool
  | _, [] => true
  | hist, ev :: evs => callSucceeded svc hist ev && callsSucceeded svc (hist ++ [ev]) evs

/-- The address lists written by the calls of a trace: for every write, in
order, the values of every change it carries. -/
def writtenAddresses : List Event → List (List String)
  | [] => []
  | Event.ChangeResourceRecordSets p3 :: evs =>
    p3.ChangeBatch.Changes.map
        (fun c => c.ResourceRecordSet.ResourceRecords.map (fun rr => rr.Value)) ++
      writtenAddresses evs
  | _ :: evs => writtenAddresses evs

/-- The same run with `NewDomains` yielding the domain models `models`. -/
def withDomainModels (env : Env) (models : List Domain) : Env :=
  { env with lib := { env.lib with NewDomains := fun _ => .ok models } }

/-- The same run with another notifier. -/
def withNotifier (env : Env) (notify : List Event → String → Diff → Except String Unit) : Env :=
  { env with lib := { env.lib with NotifyToSlack := notify } }

/-! ## Auxiliary facts about the loop body -/

theorem foldl_append_singleton {α β : Type} (f : α → β) (l : List α) (init : List β) :
    l.foldl (fun acc x => acc ++ [f x]) init = init ++ l.map f := by
  induction l generalizing init with
  | nil => simp
  | cons a l ih => simp [ih]

theorem recordsOf_eq_map (ips : List String) :
    recordsOf ips = ips.map (fun ip => ({ Value := ip } : ResourceRecord)) := by
  unfold recordsOf
  rw [foldl_append_singleton (fun ip => ({ Value := ip } : ResourceRecord))]
  simp

theorem existingIPs_cons (rrset : ResourceRecordSet) (others : List ResourceRecordSet) :
    existingIPs (rrset :: others) =
      if rrset.Type_ = "A" then rrset.ResourceRecords.map (fun rr => rr.Value) else [] := by
  simp only [existingIPs]
  rw [foldl_append_singleton (fun rr : ResourceRecord => rr.Value)]
  simp

theorem handleDomain_skip (env : Env) (req : Request) (target : HostedZone) (tr : List Event)
    (domain : Domain) (h : env.lib.IPsByTag req domain.Tag = []) :
    handleDomain env req target tr domain = (none, []) := by
  simp [handleDomain, h]

theorem handleDomain_lookup_error (env : Env) (req : Request) (target : HostedZone)
    (tr : List Event) (domain : Domain) (e : String)
    (hips : env.lib.IPsByTag req domain.Tag ≠ [])
    (hlookup : env.svc.ListResourceRecordSets tr (lookupInput target domain) = .error e) :
    handleDomain env req target tr domain =
      (some (-1), [Event.ListResourceRecordSets (lookupInput target domain)]) := by
  simp [handleDomain, hips, hlookup]

theorem handleDomain_lookup_ok (env : Env) (req : Request) (target : HostedZone)
    (tr : List Event) (domain : Domain) (r2 : ListResourceRecordSetsOutput)
    (hips : env.lib.IPsByTag req domain.Tag ≠ [])
    (hlookup : env.svc.ListResourceRecordSets tr (lookupInput target domain) = .ok r2) :
    handleDomain env req target tr domain =
      ((applyDiff env target (tr ++ [Event.ListResourceRecordSets (lookupInput target domain)])
          domain (env.lib.IPsByTag req domain.Tag)
          (env.lib.NewDiff (existingIPs r2.ResourceRecordSets)
            (env.lib.IPsByTag req domain.Tag))).1,
       Event.ListResourceRecordSets (lookupInput target domain) ::
        (applyDiff env target (tr ++ [Event.ListResourceRecordSets (lookupInput target domain)])
          domain (env.lib.IPsByTag req domain.Tag)
          (env.lib.NewDiff (existingIPs r2.ResourceRecordSets)
            (env.lib.IPsByTag req domain.Tag))).2) := by
  simp [handleDomain, hips, hlookup]

theorem applyDiff_unchanged (env : Env) (target : HostedZone) (tr : List Event)
    (domain : Domain) (ips : List String) (diff : Diff)
    (h : env.lib.IsChanged diff = false) :
    applyDiff env target tr domain ips diff = (none, []) := by
  simp [applyDiff, h]

theorem applyDiff_write_error (env : Env) (target : HostedZone) (tr : List Event)
    (domain : Domain) (ips : List String) (diff : Diff) (e : String)
    (h : env.lib.IsChanged diff = true)
    (hwrite : env.svc.ChangeResourceRecordSets tr (upsertInput target domain ips) = .error e) :
    applyDiff env target tr domain ips diff =
      (some (-1), [Event.ChangeResourceRecordSets (upsertInput target domain ips)]) := by
  simp [applyDiff, h, hwrite]

theorem applyDiff_write_ok (env : Env) (target : HostedZone) (tr : List Event)
    (domain : Domain) (ips : List String) (diff : Diff) (r3 : ChangeResourceRecordSetsOutput)
    (h : env.lib.IsChanged diff = true)
    (hwrite : env.svc.ChangeResourceRecordSets tr (upsertInput target domain ips) = .ok r3) :
    applyDiff env target tr domain ips diff =
      (none, [Event.ChangeResourceRecordSets (upsertInput target domain ips),
              Event.NotifyToSlack domain.FQDN diff]) := by
  simp [applyDiff, h, hwrite]

theorem domainLoop_cons_next (env : Env) (req : Request) (target : HostedZone)
    (tr : List Event) (domain : Domain) (rest : List Domain) (evs : List Event)
    (h : handleDomain env req target tr domain = (none, evs)) :
    domainLoop env req target (domain :: rest) tr = domainLoop env req target rest (tr ++ evs) := by
  simp [domainLoop, h]

theorem domainLoop_cons_return (env : Env) (req : Request) (target : HostedZone)
    (tr : List Event) (domain : Domain) (rest : List Domain) (code : Int) (evs : List Event)
    (h : handleDomain env req target tr domain = (some code, evs)) :
    domainLoop env req target (domain :: rest) tr = (code, tr ++ evs) := by
  simp [domainLoop, h]

theorem handleDomain_cases (env : Env) (req : Request) (target : HostedZone) (tr : List Event)
    (domain : Domain) :
    (env.lib.IPsByTag req domain.Tag = [] ∧
      handleDomain env req target tr domain = (none, [])) ∨
    (env.lib.IPsByTag req domain.Tag ≠ [] ∧
      ∃ e, env.svc.ListResourceRecordSets tr (lookupInput target domain) = .error e ∧
        handleDomain env req target tr domain =
          (some (-1), [Event.ListResourceRecordSets (lookupInput target domain)])) ∨
    (env.lib.IPsByTag req domain.Tag ≠ [] ∧
      ∃ r2, env.svc.ListResourceRecordSets tr (lookupInput target domain) = .ok r2 ∧
        env.lib.IsChanged (env.lib.NewDiff (existingIPs r2.ResourceRecordSets)
          (env.lib.IPsByTag req domain.Tag)) = false ∧
        handleDomain env req target tr domain =
          (none, [Event.ListResourceRecordSets (lookupInput target domain)])) ∨
    (env.lib.IPsByTag req domain.Tag ≠ [] ∧
      ∃ r2 e, env.svc.ListResourceRecordSets tr (lookupInput target domain) = .ok r2 ∧
        env.lib.IsChanged (env.lib.NewDiff (existingIPs r2.ResourceRecordSets)
          (env.lib.IPsByTag req domain.Tag)) = true ∧
        env.svc.ChangeResourceRecordSets
          (tr ++ [Event.ListResourceRecordSets (lookupInput target domain)])
          (upsertInput target domain (env.lib.IPsByTag req domain.Tag)) = .error e ∧
        handleDomain env req target tr domain =
          (some (-1), [Event.ListResourceRecordSets (lookupInput target domain),
            Event.ChangeResourceRecordSets
              (upsertInput target domain (env.lib.IPsByTag req domain.Tag))])) ∨
    (env.lib.IPsByTag req domain.Tag ≠ [] ∧
      ∃ r2 r3, env.svc.ListResourceRecordSets tr (lookupInput target domain) = .ok r2 ∧
        env.lib.IsChanged (env.lib.NewDiff (existingIPs r2.ResourceRecordSets)
          (env.lib.IPsByTag req domain.Tag)) = true ∧
        env.svc.ChangeResourceRecordSets
          (tr ++ [Event.ListResourceRecordSets (lookupInput target domain)])
          (upsertInput target domain (env.lib.IPsByTag req domain.Tag)) = .ok r3 ∧
        handleDomain env req target tr domain =
          (none, [Event.ListResourceRecordSets (lookupInput target domain),
            Event.ChangeResourceRecordSets
              (upsertInput target domain (env.lib.IPsByTag req domain.Tag)),
            Event.NotifyToSlack domain.FQDN
              (env.lib.NewDiff (existingIPs r2.ResourceRecordSets)
                (env.lib.IPsByTag req domain.Tag))])) := by
  by_cases hips : env.lib.IPsByTag req domain.Tag = []
  · exact Or.inl ⟨hips, handleDomain_skip env req target tr domain hips⟩
  · right
    cases hlookup : env.svc.ListResourceRecordSets tr (lookupInput target domain) with
    | error e =>
      exact Or.inl ⟨hips, e, rfl,
        handleDomain_lookup_error env req target tr domain e hips hlookup⟩
    | ok r2 =>
      right
      have hbody := handleDomain_lookup_ok env req target tr domain r2 hips hlookup
      cases hchanged : env.lib.IsChanged (env.lib.NewDiff (existingIPs r2.ResourceRecordSets)
          (env.lib.IPsByTag req domain.Tag)) with
      | false =>
        refine Or.inl ⟨hips, r2, rfl, hchanged, ?_⟩
        rw [hbody, applyDiff_unchanged _ _ _ _ _ _ hchanged]
      | true =>
        right
        cases hwrite : env.svc.ChangeResourceRecordSets
            (tr ++ [Event.ListResourceRecordSets (lookupInput target domain)])
            (upsertInput target domain (env.lib.IPsByTag req domain.Tag)) with
        | error e =>
          refine Or.inl ⟨hips, r2, e, rfl, hchanged, rfl, ?_⟩
          rw [hbody, applyDiff_write_error _ _ _ _ _ _ e hchanged hwrite]
        | ok r3 =>
          refine Or.inr ⟨hips, r2, r3, rfl, hchanged, rfl, ?_⟩
          rw [hbody, applyDiff_write_ok _ _ _ _ _ _ r3 hchanged hwrite]

theorem recordsOf_ne_nil (ips : List String) (h : ips ≠ []) : recordsOf ips ≠ [] := by
  rw [recordsOf_eq_map]
  simpa using h

theorem upsertInput_carriesAddresses (target : HostedZone) (domain : Domain)
    (ips : List String) (h : ips ≠ []) :
    (Event.ChangeResourceRecordSets (upsertInput target domain ips)).carriesAddresses = true := by
  have hne := recordsOf_ne_nil ips h
  simp [Event.carriesAddresses, upsertInput, List.isEmpty_iff, hne]

theorem handleDomain_carriesAddresses (env : Env) (req : Request) (target : HostedZone)
    (tr : List Event) (domain : Domain) :
    ∀ ev ∈ (handleDomain env req target tr domain).2, ev.carriesAddresses = true := by
  intro ev hev
  rcases handleDomain_cases env req target tr domain with
    ⟨_, h⟩ | ⟨_, _, _, h⟩ | ⟨_, _, _, _, h⟩ | ⟨hips, _, _, _, _, _, h⟩ | ⟨hips, _, _, _, _, _, h⟩
  all_goals rw [h] at hev
  · simp at hev
  · simp at hev; subst hev; rfl
  · simp at hev; subst hev; rfl
  · simp at hev
    rcases hev with rfl | rfl
    · rfl
    · exact upsertInput_carriesAddresses target domain _ hips
  · simp at hev
    rcases hev with rfl | rfl | rfl
    · rfl
    · exact upsertInput_carriesAddresses target domain _ hips
    · rfl

theorem domainLoop_carriesAddresses (env : Env) (req : Request) (target : HostedZone)
    (models : List Domain) (tr : List Event)
    (htr : ∀ ev ∈ tr, ev.carriesAddresses = true) :
    ∀ ev ∈ (domainLoop env req target models tr).2, ev.carriesAddresses = true := by
  induction models generalizing tr with
  | nil => simpa [domainLoop] using htr
  | cons domain rest ih =>
    have hbody := handleDomain_carriesAddresses env req target tr domain
    have hall : ∀ ev ∈ tr ++ (handleDomain env req target tr domain).2,
        ev.carriesAddresses = true := by
      intro ev hev
      rcases List.mem_append.mp hev with h | h
      · exact htr ev h
      · exact hbody ev h
    rcases hres : handleDomain env req target tr domain with ⟨ret, evs⟩
    rw [hres] at hall
    cases ret with
    | none =>
      rw [domainLoop_cons_next env req target tr domain rest evs hres]
      exact ih (tr ++ evs) hall
    | some code =>
      rw [domainLoop_cons_return env req target tr domain rest code evs hres]
      exact hall

theorem runWatcher_carriesAddresses (env : Env) :
    ∀ ev ∈ (runWatcher env).2, ev.carriesAddresses = true := by
  unfold runWatcher
  split
  · simp
  · split
    · simp
    · simp only
      split
      · intro ev hev; simp at hev; subst hev; rfl
      · split
        · intro ev hev; simp at hev; subst hev; rfl
        · split
          · intro ev hev; simp at hev; subst hev; rfl
          · apply domainLoop_carriesAddresses
            intro ev hev; simp at hev; subst hev; rfl

theorem domainLoop_skip_middle (env : Env) (req : Request) (target : HostedZone)
    (before : List Domain) (domain : Domain) (after : List Domain) (tr : List Event)
    (h : env.lib.IPsByTag req domain.Tag = []) :
    domainLoop env req target (before ++ domain :: after) tr =
      domainLoop env req target (before ++ after) tr := by
  induction before generalizing tr with
  | nil =>
    have hskip := handleDomain_skip env req target tr domain h
    simpa using domainLoop_cons_next env req target tr domain after [] hskip
  | cons first others ih =>
    rcases hres : handleDomain env req target tr first with ⟨ret, evs⟩
    cases ret with
    | none =>
      simp only [List.cons_append]
      rw [domainLoop_cons_next env req target tr first _ evs hres,
        domainLoop_cons_next env req target tr first _ evs hres]
      exact ih (tr ++ evs)
    | some code =>
      simp only [List.cons_append]
      rw [domainLoop_cons_return env req target tr first _ code evs hres,
        domainLoop_cons_return env req target tr first _ code evs hres]

/-! ## The differ of the specification -/

theorem specIsChanged_eq_false_iff (existing observed : List String) :
    specIsChanged (specNewDiff existing observed) = false ↔
      ∀ a, a ∈ existing ↔ a ∈ observed := by
  simp only [specIsChanged, specNewDiff, Bool.or_eq_false_iff, Bool.not_eq_false_eq_eq_true,
    List.isEmpty_iff, List.dedup_eq_nil, List.filter_eq_nil_iff]
  constructor
  · rintro ⟨hadded, hremoved⟩ a
    constructor
    · intro ha
      simpa using hremoved a ha
    · intro ha
      simpa using hadded a ha
  · intro h
    constructor
    · intro a ha
      simpa using (h a).mpr ha
    · intro a ha
      simpa using (h a).mp ha

/-! ## The claims -/

/-- C1: a domain for whose tag `IPsByTag` returns no address is skipped: the
loop body makes no call at all (no lookup, no write, no notification) and does
not return, the loop behaves as if the domain were not in the list, and no
write issued by `runWatcher` carries an empty list of records. -/
theorem C1_empty_observation_skipped (env : Env) (req : Request) (target : HostedZone)
    (tr : List Event) (before : List Domain) (domain : Domain) (after : List Domain)
    (h : env.lib.IPsByTag req domain.Tag = []) :
    handleDomain env req target tr domain = (none, []) ∧
    domainLoop env req target (domain :: after) tr = domainLoop env req target after tr ∧
    domainLoop env req target (before ++ domain :: after) tr =
      domainLoop env req target (before ++ after) tr ∧
    (∀ p3, Event.ChangeResourceRecordSets p3 ∈ (runWatcher env).2 →
      ∀ c ∈ p3.ChangeBatch.Changes, c.ResourceRecordSet.ResourceRecords ≠ []) := by
  refine ⟨handleDomain_skip env req target tr domain h, ?_,
    domainLoop_skip_middle env req target before domain after tr h, ?_⟩
  · simpa using domainLoop_skip_middle env req target [] domain after tr h
  · intro p3 hp3 c hc
    have hcarries := runWatcher_carriesAddresses env _ hp3
    simp only [Event.carriesAddresses, List.all_eq_true] at hcarries
    have hc2 := hcarries c hc
    intro hempty
    simp [hempty] at hc2

/-- In `scenarioSkip` the domain `b.example.com` has no observation: it causes
no call, and the run is the run over `a.example.com` alone. -/
theorem C1_empty_observation_skipped_witness :
    scenarioSkip.lib.IPsByTag reportTwo domainB.Tag = [] ∧
    (handleDomain scenarioSkip reportTwo zoneZ1 [listZonesCall] domainB = (none, []) ∧
     domainLoop scenarioSkip reportTwo zoneZ1 (domainB :: [domainA]) [listZonesCall] =
       domainLoop scenarioSkip reportTwo zoneZ1 [domainA] [listZonesCall] ∧
     domainLoop scenarioSkip reportTwo zoneZ1 ([] ++ domainB :: [domainA]) [listZonesCall] =
       domainLoop scenarioSkip reportTwo zoneZ1 ([] ++ [domainA]) [listZonesCall] ∧
     (∀ p3, Event.ChangeResourceRecordSets p3 ∈ (runWatcher scenarioSkip).2 →
       ∀ c ∈ p3.ChangeBatch.Changes, c.ResourceRecordSet.ResourceRecords ≠ [])) ∧
    runWatcher scenarioSkip =
      (0, [listZonesCall, lookupA, upsertA ["1.2.3.4", "5.6.7.8"],
        Event.NotifyToSlack "a.example.com" { Added := ["5.6.7.8"], Removed := [] }]) :=
  ⟨by decide,
   C1_empty_observation_skipped scenarioSkip reportTwo zoneZ1 [listZonesCall] [] domainB
     [domainA] (by decide),
   by decide⟩

/-- C2: with the differ of the specification, a domain with at least one
observed address, whose lookup succeeds and whose existing addresses equal the
observed ones as sets (in any order, with any repetition), causes the lookup
and nothing else: no write and no notification, and the loop goes on. -/
theorem C2_no_spurious_update (env : Env) (req : Request) (target : HostedZone)
    (tr : List Event) (domain : Domain) (r2 : ListResourceRecordSetsOutput)
    (hdiff : env.lib.NewDiff = specNewDiff) (hchanged : env.lib.IsChanged = specIsChanged)
    (hips : env.lib.IPsByTag req domain.Tag ≠ [])
    (hlookup : env.svc.ListResourceRecordSets tr (lookupInput target domain) = .ok r2)
    (hsame : ∀ a, a ∈ existingIPs r2.ResourceRecordSets ↔
      a ∈ env.lib.IPsByTag req domain.Tag) :
    handleDomain env req target tr domain =
      (none, [Event.ListResourceRecordSets (lookupInput target domain)]) ∧
    (∀ ev ∈ (handleDomain env req target tr domain).2,
      ev.isWrite = false ∧ ev.isNotify = false) := by
  have hunchanged : env.lib.IsChanged (env.lib.NewDiff (existingIPs r2.ResourceRecordSets)
      (env.lib.IPsByTag req domain.Tag)) = false := by
    rw [hdiff, hchanged]
    exact (specIsChanged_eq_false_iff _ _).mpr hsame
  have hbody : handleDomain env req target tr domain =
      (none, [Event.ListResourceRecordSets (lookupInput target domain)]) := by
    rw [handleDomain_lookup_ok env req target tr domain r2 hips hlookup,
      applyDiff_unchanged _ _ _ _ _ _ hunchanged]
  refine ⟨hbody, ?_⟩
  intro ev hev
  rw [hbody] at hev
  simp at hev
  subst hev
  exact ⟨rfl, rfl⟩

/-- Scenario 1: observed `[1.2.3.4, 1.2.3.4]` against existing `[1.2.3.4]`
causes the lookup only, and the whole run returns 0 without write or notify. -/
theorem C2_no_spurious_update_witness :
    (handleDomain scenario1 reportDup zoneZ1 [listZonesCall] domainA =
      (none, [Event.ListResourceRecordSets (lookupInput zoneZ1 domainA)]) ∧
     (∀ ev ∈ (handleDomain scenario1 reportDup zoneZ1 [listZonesCall] domainA).2,
       ev.isWrite = false ∧ ev.isNotify = false)) ∧
    scenario1.lib.IPsByTag reportDup domainA.Tag = ["1.2.3.4", "1.2.3.4"] ∧
    existingIPs [recordA] = ["1.2.3.4"] ∧
    runWatcher scenario1 = (0, [listZonesCall, lookupA]) :=
  ⟨C2_no_spurious_update scenario1 reportDup zoneZ1 [listZonesCall] domainA
     { ResourceRecordSets := [recordA] } rfl rfl (by decide) rfl
     (by
       intro a
       have hold : existingIPs [recordA] = ["1.2.3.4"] := by decide
       have hnew : scenario1.lib.IPsByTag reportDup domainA.Tag = ["1.2.3.4", "1.2.3.4"] := by
         decide
       simp [hold, hnew]),
   by decide, by decide, by decide⟩

/-- C3: for a domain with at least one observed address whose lookup succeeds,
the loop body issues a write if and only if `IsChanged` holds of
`NewDiff existing observed`; when it does not, the body makes the lookup and
nothing else (no write, no notification) and the loop goes on with the next
domain. -/
theorem C3_write_iff_changed (env : Env) (req : Request) (target : HostedZone)
    (tr : List Event) (domain : Domain) (rest : List Domain)
    (r2 : ListResourceRecordSetsOutput)
    (hips : env.lib.IPsByTag req domain.Tag ≠ [])
    (hlookup : env.svc.ListResourceRecordSets tr (lookupInput target domain) = .ok r2) :
    ((∃ ev ∈ (handleDomain env req target tr domain).2, ev.isWrite = true) ↔
      env.lib.IsChanged (env.lib.NewDiff (existingIPs r2.ResourceRecordSets)
        (env.lib.IPsByTag req domain.Tag)) = true) ∧
    (env.lib.IsChanged (env.lib.NewDiff (existingIPs r2.ResourceRecordSets)
        (env.lib.IPsByTag req domain.Tag)) = false →
      handleDomain env req target tr domain =
        (none, [Event.ListResourceRecordSets (lookupInput target domain)]) ∧
      (∀ ev ∈ (handleDomain env req target tr domain).2,
        ev.isWrite = false ∧ ev.isNotify = false) ∧
      domainLoop env req target (domain :: rest) tr =
        domainLoop env req target rest
          (tr ++ [Event.ListResourceRecordSets (lookupInput target domain)])) := by
  have hbody := handleDomain_lookup_ok env req target tr domain r2 hips hlookup
  constructor
  · cases hchanged : env.lib.IsChanged (env.lib.NewDiff (existingIPs r2.ResourceRecordSets)
        (env.lib.IPsByTag req domain.Tag)) with
    | false =>
      rw [hbody, applyDiff_unchanged _ _ _ _ _ _ hchanged]
      simp [Event.isWrite]
    | true =>
      cases hwrite : env.svc.ChangeResourceRecordSets
          (tr ++ [Event.ListResourceRecordSets (lookupInput target domain)])
          (upsertInput target domain (env.lib.IPsByTag req domain.Tag)) with
      | error e =>
        rw [hbody, applyDiff_write_error _ _ _ _ _ _ e hchanged hwrite]
        simp [Event.isWrite]
      | ok r3 =>
        rw [hbody, applyDiff_write_ok _ _ _ _ _ _ r3 hchanged hwrite]
        simp [Event.isWrite]
  · intro hchanged
    have hres : handleDomain env req target tr domain =
        (none, [Event.ListResourceRecordSets (lookupInput target domain)]) := by
      rw [hbody, applyDiff_unchanged _ _ _ _ _ _ hchanged]
    refine ⟨hres, ?_, domainLoop_cons_next env req target tr domain rest _ hres⟩
    intro ev hev
    rw [hres] at hev
    simp at hev
    subst hev
    exact ⟨rfl, rfl⟩

/-- Scenario 1 is unchanged (lookup only, the loop ends with 0) and scenario 2
is changed (its body contains a write). -/
theorem C3_write_iff_changed_witness :
    (((∃ ev ∈ (handleDomain scenario2 reportTwo zoneZ1 [listZonesCall] domainA).2,
        ev.isWrite = true) ↔
      scenario2.lib.IsChanged (scenario2.lib.NewDiff
        (existingIPs ({ ResourceRecordSets := [recordA] } :
          ListResourceRecordSetsOutput).ResourceRecordSets)
        (scenario2.lib.IPsByTag reportTwo domainA.Tag)) = true) ∧
     (scenario2.lib.IsChanged (scenario2.lib.NewDiff
        (existingIPs ({ ResourceRecordSets := [recordA] } :
          ListResourceRecordSetsOutput).ResourceRecordSets)
        (scenario2.lib.IPsByTag reportTwo domainA.Tag)) = false →
      handleDomain scenario2 reportTwo zoneZ1 [listZonesCall] domainA =
        (none, [Event.ListResourceRecordSets (lookupInput zoneZ1 domainA)]) ∧
      (∀ ev ∈ (handleDomain scenario2 reportTwo zoneZ1 [listZonesCall] domainA).2,
        ev.isWrite = false ∧ ev.isNotify = false) ∧
      domainLoop scenario2 reportTwo zoneZ1 (domainA :: []) [listZonesCall] =
        domainLoop scenario2 reportTwo zoneZ1 []
          ([listZonesCall] ++ [Event.ListResourceRecordSets (lookupInput zoneZ1 domainA)]))) ∧
    scenario2.lib.IsChanged (scenario2.lib.NewDiff (existingIPs [recordA])
      (scenario2.lib.IPsByTag reportTwo domainA.Tag)) = true ∧
    scenario1.lib.IsChanged (scenario1.lib.NewDiff (existingIPs [recordA])
      (scenario1.lib.IPsByTag reportDup domainA.Tag)) = false :=
  ⟨C3_write_iff_changed scenario2 reportTwo zoneZ1 [listZonesCall] domainA []
     { ResourceRecordSets := [recordA] } (by decide) rfl,
   by decide, by decide⟩

/-- C4: for a domain whose diff is changed, the loop body issues exactly one
write: an UPSERT, in the zone found, of the record `FQDN + "."` of type "A"
with TTL 60 whose values are the observed addresses, one record per address in
their order, whatever the existing record holds.  When the write succeeds the
body then notifies once, with the domain's FQDN and the diff, and the loop goes
on; when it fails the body returns -1 without notifying. -/
theorem C4_changed_domain_upsert (env : Env) (req : Request) (target : HostedZone)
    (tr : List Event) (domain : Domain) (r2 : ListResourceRecordSetsOutput)
    (hips : env.lib.IPsByTag req domain.Tag ≠ [])
    (hlookup : env.svc.ListResourceRecordSets tr (lookupInput target domain) = .ok r2)
    (hchanged : env.lib.IsChanged (env.lib.NewDiff (existingIPs r2.ResourceRecordSets)
      (env.lib.IPsByTag req domain.Tag)) = true) :
    ∃ p3 : ChangeResourceRecordSetsInput,
      p3.HostedZoneId = target.Id ∧
      p3.ChangeBatch.Changes =
        [{ Action := "UPSERT"
           ResourceRecordSet :=
             { Name := domain.FQDN ++ "."
               Type_ := "A"
               ResourceRecords :=
                 (env.lib.IPsByTag req domain.Tag).map (fun ip => { Value := ip })
               TTL := some 60 } }] ∧
      (handleDomain env req target tr domain).2.filter Event.isWrite =
        [Event.ChangeResourceRecordSets p3] ∧
      (∀ r3, env.svc.ChangeResourceRecordSets
          (tr ++ [Event.ListResourceRecordSets (lookupInput target domain)]) p3 = .ok r3 →
        handleDomain env req target tr domain =
          (none, [Event.ListResourceRecordSets (lookupInput target domain),
            Event.ChangeResourceRecordSets p3,
            Event.NotifyToSlack domain.FQDN
              (env.lib.NewDiff (existingIPs r2.ResourceRecordSets)
                (env.lib.IPsByTag req domain.Tag))])) ∧
      (∀ e, env.svc.ChangeResourceRecordSets
          (tr ++ [Event.ListResourceRecordSets (lookupInput target domain)]) p3 = .error e →
        handleDomain env req target tr domain =
          (some (-1), [Event.ListResourceRecordSets (lookupInput target domain),
            Event.ChangeResourceRecordSets p3])) := by
  have hbody := handleDomain_lookup_ok env req target tr domain r2 hips hlookup
  have hok : ∀ r3, env.svc.ChangeResourceRecordSets
      (tr ++ [Event.ListResourceRecordSets (lookupInput target domain)])
      (upsertInput target domain (env.lib.IPsByTag req domain.Tag)) = .ok r3 →
      handleDomain env req target tr domain =
        (none, [Event.ListResourceRecordSets (lookupInput target domain),
          Event.ChangeResourceRecordSets
            (upsertInput target domain (env.lib.IPsByTag req domain.Tag)),
          Event.NotifyToSlack domain.FQDN
            (env.lib.NewDiff (existingIPs r2.ResourceRecordSets)
              (env.lib.IPsByTag req domain.Tag))]) := by
    intro r3 hwrite
    rw [hbody, applyDiff_write_ok _ _ _ _ _ _ r3 hchanged hwrite]
  have herr : ∀ e, env.svc.ChangeResourceRecordSets
      (tr ++ [Event.ListResourceRecordSets (lookupInput target domain)])
      (upsertInput target domain (env.lib.IPsByTag req domain.Tag)) = .error e →
      handleDomain env req target tr domain =
        (some (-1), [Event.ListResourceRecordSets (lookupInput target domain),
          Event.ChangeResourceRecordSets
            (upsertInput target domain (env.lib.IPsByTag req domain.Tag))]) := by
    intro e hwrite
    rw [hbody, applyDiff_write_error _ _ _ _ _ _ e hchanged hwrite]
  refine ⟨upsertInput target domain (env.lib.IPsByTag req domain.Tag), rfl, ?_, ?_, hok, herr⟩
  · simp [upsertInput, recordsOf_eq_map]
  · cases hwrite : env.svc.ChangeResourceRecordSets
        (tr ++ [Event.ListResourceRecordSets (lookupInput target domain)])
        (upsertInput target domain (env.lib.IPsByTag req domain.Tag)) with
    | error e => rw [herr e hwrite]; simp [List.filter, Event.isWrite]
    | ok r3 => rw [hok r3 hwrite]; simp [List.filter, Event.isWrite]

/-- Scenario 2: observed `[1.2.3.4, 5.6.7.8]` against existing `[1.2.3.4]`
upserts `[1.2.3.4, 5.6.7.8]` and notifies once. -/
theorem C4_changed_domain_upsert_witness :
    (∃ p3 : ChangeResourceRecordSetsInput,
      p3.HostedZoneId = zoneZ1.Id ∧
      p3.ChangeBatch.Changes =
        [{ Action := "UPSERT"
           ResourceRecordSet :=
             { Name := domainA.FQDN ++ "."
               Type_ := "A"
               ResourceRecords :=
                 (scenario2.lib.IPsByTag reportTwo domainA.Tag).map (fun ip => { Value := ip })
               TTL := some 60 } }] ∧
      (handleDomain scenario2 reportTwo zoneZ1 [listZonesCall] domainA).2.filter Event.isWrite =
        [Event.ChangeResourceRecordSets p3] ∧
      (∀ r3, scenario2.svc.ChangeResourceRecordSets
          ([listZonesCall] ++ [Event.ListResourceRecordSets (lookupInput zoneZ1 domainA)]) p3 =
            .ok r3 →
        handleDomain scenario2 reportTwo zoneZ1 [listZonesCall] domainA =
          (none, [Event.ListResourceRecordSets (lookupInput zoneZ1 domainA),
            Event.ChangeResourceRecordSets p3,
            Event.NotifyToSlack domainA.FQDN
              (scenario2.lib.NewDiff
                (existingIPs ({ ResourceRecordSets := [recordA] } :
                  ListResourceRecordSetsOutput).ResourceRecordSets)
                (scenario2.lib.IPsByTag reportTwo domainA.Tag))])) ∧
      (∀ e, scenario2.svc.ChangeResourceRecordSets
          ([listZonesCall] ++ [Event.ListResourceRecordSets (lookupInput zoneZ1 domainA)]) p3 =
            .error e →
        handleDomain scenario2 reportTwo zoneZ1 [listZonesCall] domainA =
          (some (-1), [Event.ListResourceRecordSets (lookupInput zoneZ1 domainA),
            Event.ChangeResourceRecordSets p3]))) ∧
    scenario2.lib.IPsByTag reportTwo domainA.Tag = ["1.2.3.4", "5.6.7.8"] ∧
    existingIPs [recordA] = ["1.2.3.4"] ∧
    runWatcher scenario2 =
      (0, [listZonesCall, lookupA, upsertA ["1.2.3.4", "5.6.7.8"],
        Event.NotifyToSlack "a.example.com" { Added := ["5.6.7.8"], Removed := [] }]) :=
  ⟨C4_changed_domain_upsert scenario2 reportTwo zoneZ1 [listZonesCall] domainA
     { ResourceRecordSets := [recordA] } (by decide) rfl (by decide),
   by decide, by decide, by decide⟩

/-! ## The run as a loop -/

theorem runWatcher_eq_loop (env : Env) (parsed : Request)
    (resp : ListHostedZonesByNameOutput) (target : HostedZone) (models : List Domain)
    (hstdin : env.stdin ≠ [])
    (hparse : env.lib.ParseRequest env.stdin = .ok parsed)
    (hzones : env.svc.ListHostedZonesByName { DNSName := env.hostedZone } = .ok resp)
    (htarget : findTarget env.hostedZone resp.HostedZones = some target)
    (hmodels : env.lib.NewDomains env.domains = .ok models) :
    runWatcher env =
      domainLoop env (overrideCheckID env.checkID parsed) target models
        [Event.ListHostedZonesByName { DNSName := env.hostedZone }] := by
  unfold runWatcher
  cases hs : env.stdin with
  | nil => exact absurd hs hstdin
  | cons b bs =>
    rw [hs] at hparse
    simp only [hparse, hzones, htarget, hmodels]

theorem handleDomain_code (env : Env) (req : Request) (target : HostedZone) (tr : List Event)
    (domain : Domain) (code : Int) (evs : List Event)
    (h : handleDomain env req target tr domain = (some code, evs)) : code = -1 := by
  rcases handleDomain_cases env req target tr domain with
    ⟨_, h'⟩ | ⟨_, _, _, h'⟩ | ⟨_, _, _, _, h'⟩ | ⟨_, _, _, _, _, _, h'⟩ | ⟨_, _, _, _, _, _, h'⟩
  all_goals rw [h'] at h
  all_goals simp at h
  · exact h.1.symm
  · exact h.1.symm

theorem domainLoop_append (env : Env) (req : Request) (target : HostedZone)
    (before after : List Domain) (tr : List Event)
    (h : (domainLoop env req target before tr).1 = 0) :
    domainLoop env req target (before ++ after) tr =
      domainLoop env req target after (domainLoop env req target before tr).2 := by
  induction before generalizing tr with
  | nil => simp [domainLoop]
  | cons first others ih =>
    rcases hres : handleDomain env req target tr first with ⟨ret, evs⟩
    cases ret with
    | none =>
      rw [domainLoop_cons_next env req target tr first others evs hres] at h ⊢
      simp only [List.cons_append]
      rw [domainLoop_cons_next env req target tr first _ evs hres]
      exact ih (tr ++ evs) h
    | some code =>
      rw [domainLoop_cons_return env req target tr first others code evs hres] at h
      have hcode := handleDomain_code env req target tr first code evs hres
      simp only at h
      omega

theorem handleDomain_withDomainModels (env : Env) (models : List Domain) (req : Request)
    (target : HostedZone) (tr : List Event) (domain : Domain) :
    handleDomain (withDomainModels env models) req target tr domain =
      handleDomain env req target tr domain := rfl

theorem domainLoop_withDomainModels (env : Env) (models : List Domain) (req : Request)
    (target : HostedZone) (domains : List Domain) (tr : List Event) :
    domainLoop (withDomainModels env models) req target domains tr =
      domainLoop env req target domains tr := by
  induction domains generalizing tr with
  | nil => rfl
  | cons first others ih =>
    simp only [domainLoop, handleDomain_withDomainModels, ih]

theorem runWatcher_withDomainModels (env : Env) (parsed : Request)
    (resp : ListHostedZonesByNameOutput) (target : HostedZone) (models : List Domain)
    (hstdin : env.stdin ≠ [])
    (hparse : env.lib.ParseRequest env.stdin = .ok parsed)
    (hzones : env.svc.ListHostedZonesByName { DNSName := env.hostedZone } = .ok resp)
    (htarget : findTarget env.hostedZone resp.HostedZones = some target) :
    runWatcher (withDomainModels env models) =
      domainLoop env (overrideCheckID env.checkID parsed) target models
        [Event.ListHostedZonesByName { DNSName := env.hostedZone }] := by
  rw [runWatcher_eq_loop (withDomainModels env models) parsed resp target models
    hstdin hparse hzones htarget rfl]
  exact domainLoop_withDomainModels env models _ target models _

theorem findTarget_foldl_none (name : String) (zones : List HostedZone)
    (init : Option HostedZone) (h : ∀ z ∈ zones, z.Name ≠ name ++ ".") :
    zones.foldl (fun target z => if z.Name = name ++ "." then some z else target) init =
      init := by
  induction zones generalizing init with
  | nil => rfl
  | cons z zs ih =>
    have hz : z.Name ≠ name ++ "." := h z (List.mem_cons_self z zs)
    simp only [List.foldl_cons, hz, if_false]
    exact ih init (fun z' hz' => h z' (List.mem_cons_of_mem z hz'))

theorem findTarget_eq_none (name : String) (zones : List HostedZone)
    (h : ∀ z ∈ zones, z.Name ≠ name ++ ".") : findTarget name zones = none :=
  findTarget_foldl_none name zones none h

theorem findTarget_foldl_some (name : String) (zones : List HostedZone)
    (init : Option HostedZone) (h : ∃ z ∈ zones, z.Name = name ++ ".") :
    ∃ target, zones.foldl
      (fun target z => if z.Name = name ++ "." then some z else target) init = some target ∧
      target.Name = name ++ "." := by
  induction zones generalizing init with
  | nil => simp at h
  | cons z zs ih =>
    simp only [List.foldl_cons]
    by_cases hlater : ∃ z' ∈ zs, z'.Name = name ++ "."
    · exact ih _ hlater
    · have hz : z.Name = name ++ "." := by
        rcases h with ⟨z', hz', hname⟩
        rcases List.mem_cons.mp hz' with rfl | hin
        · exact hname
        · exact absurd ⟨z', hin, hname⟩ hlater
      have hnone : ∀ z' ∈ zs, z'.Name ≠ name ++ "." := by
        intro z' hz' hname
        exact hlater ⟨z', hz', hname⟩
      rw [findTarget_foldl_none name zs _ hnone]
      simp [hz]

theorem findTarget_isSome_iff (name : String) (zones : List HostedZone) :
    (∃ target, findTarget name zones = some target) ↔ ∃ z ∈ zones, z.Name = name ++ "." := by
  constructor
  · rintro ⟨target, htarget⟩
    by_contra hnone
    have hall : ∀ z ∈ zones, z.Name ≠ name ++ "." := by
      intro z hz hname
      exact hnone ⟨z, hz, hname⟩
    rw [findTarget_eq_none name zones hall] at htarget
    simp at htarget
  · intro h
    rcases findTarget_foldl_some name zones none h with ⟨target, htarget, _⟩
    exact ⟨target, htarget⟩

/-- C5: in a run that reaches the loop over the domain models
`before ++ domain :: after`, if the domains of `before` are all processed
without error and the lookup or the write for `domain` fails, then `runWatcher`
returns -1 and its trace is the trace of the run over `before` followed by the
lookup, or the lookup and the write, of `domain`: nothing is notified for
`domain`, nothing at all is done for the domains of `after` (the run is the
run in which they are not configured), and the calls made for `before` are
neither undone nor repeated. -/
theorem C5_fail_fast (env : Env) (parsed : Request) (resp : ListHostedZonesByNameOutput)
    (target : HostedZone) (before : List Domain) (domain : Domain) (after : List Domain)
    (hstdin : env.stdin ≠ [])
    (hparse : env.lib.ParseRequest env.stdin = .ok parsed)
    (hzones : env.svc.ListHostedZonesByName { DNSName := env.hostedZone } = .ok resp)
    (htarget : findTarget env.hostedZone resp.HostedZones = some target)
    (hmodels : env.lib.NewDomains env.domains = .ok (before ++ domain :: after))
    (hbefore : (runWatcher (withDomainModels env before)).1 = 0)
    (hips : env.lib.IPsByTag (overrideCheckID env.checkID parsed) domain.Tag ≠ [])
    (hfail :
      (∃ e, env.svc.ListResourceRecordSets (runWatcher (withDomainModels env before)).2
          (lookupInput target domain) = .error e) ∨
      (∃ r2 e,
        env.svc.ListResourceRecordSets (runWatcher (withDomainModels env before)).2
          (lookupInput target domain) = .ok r2 ∧
        env.lib.IsChanged (env.lib.NewDiff (existingIPs r2.ResourceRecordSets)
          (env.lib.IPsByTag (overrideCheckID env.checkID parsed) domain.Tag)) = true ∧
        env.svc.ChangeResourceRecordSets
          ((runWatcher (withDomainModels env before)).2 ++
            [Event.ListResourceRecordSets (lookupInput target domain)])
          (upsertInput target domain
            (env.lib.IPsByTag (overrideCheckID env.checkID parsed) domain.Tag)) = .error e)) :
    (runWatcher env).1 = -1 ∧
    (runWatcher env).1 ≠ 0 ∧
    ((runWatcher env).2 =
        (runWatcher (withDomainModels env before)).2 ++
          [Event.ListResourceRecordSets (lookupInput target domain)] ∨
      (runWatcher env).2 =
        (runWatcher (withDomainModels env before)).2 ++
          [Event.ListResourceRecordSets (lookupInput target domain),
           Event.ChangeResourceRecordSets (upsertInput target domain
             (env.lib.IPsByTag (overrideCheckID env.checkID parsed) domain.Tag))]) ∧
    runWatcher env = runWatcher (withDomainModels env (before ++ [domain])) := by
  have hrunB := runWatcher_withDomainModels env parsed resp target before
    hstdin hparse hzones htarget
  have hrunBD := runWatcher_withDomainModels env parsed resp target (before ++ [domain])
    hstdin hparse hzones htarget
  have hrun := runWatcher_eq_loop env parsed resp target (before ++ domain :: after)
    hstdin hparse hzones htarget hmodels
  rw [hrunB] at hbefore hfail
  rw [hrunB, hrunBD, hrun, domainLoop_append _ _ _ before (domain :: after) _ hbefore,
    domainLoop_append _ _ _ before [domain] _ hbefore]
  rcases hfail with ⟨e, hlookup⟩ | ⟨r2, e, hlookup, hchanged, hwrite⟩
  · have hres := handleDomain_lookup_error env _ target _ domain e hips hlookup
    rw [domainLoop_cons_return _ _ _ _ domain after _ _ hres,
      domainLoop_cons_return _ _ _ _ domain [] _ _ hres]
    simp
  · have hres : handleDomain env (overrideCheckID env.checkID parsed) target
        (domainLoop env (overrideCheckID env.checkID parsed) target before
          [Event.ListHostedZonesByName { DNSName := env.hostedZone }]).2 domain =
        (some (-1), [Event.ListResourceRecordSets (lookupInput target domain),
          Event.ChangeResourceRecordSets (upsertInput target domain
            (env.lib.IPsByTag (overrideCheckID env.checkID parsed) domain.Tag))]) := by
      rw [handleDomain_lookup_ok env _ target _ domain r2 hips hlookup,
        applyDiff_write_error _ _ _ _ _ _ e hchanged hwrite]
    rw [domainLoop_cons_return _ _ _ _ domain after _ _ hres,
      domainLoop_cons_return _ _ _ _ domain [] _ _ hres]
    simp

/-- Scenario 4: two domains, the write for the first fails: the run returns -1
after the lookup and the write for `a.example.com`, and `b.example.com` is
never processed. -/
theorem C5_fail_fast_witness :
    ((runWatcher scenarioWriteFails).1 = -1 ∧
     (runWatcher scenarioWriteFails).1 ≠ 0 ∧
     ((runWatcher scenarioWriteFails).2 =
         (runWatcher (withDomainModels scenarioWriteFails [])).2 ++
           [Event.ListResourceRecordSets (lookupInput zoneZ1 domainA)] ∨
       (runWatcher scenarioWriteFails).2 =
         (runWatcher (withDomainModels scenarioWriteFails [])).2 ++
           [Event.ListResourceRecordSets (lookupInput zoneZ1 domainA),
            Event.ChangeResourceRecordSets (upsertInput zoneZ1 domainA
              (scenarioWriteFails.lib.IPsByTag
                (overrideCheckID scenarioWriteFails.checkID reportBoth) domainA.Tag))]) ∧
     runWatcher scenarioWriteFails =
       runWatcher (withDomainModels scenarioWriteFails ([] ++ [domainA]))) ∧
    runWatcher scenarioWriteFails =
      (-1, [listZonesCall, lookupA, upsertA ["1.2.3.4", "5.6.7.8"]]) ∧
    scenarioWriteFails.lib.IPsByTag reportBoth domainB.Tag = ["9.9.9.9"] :=
  ⟨C5_fail_fast scenarioWriteFails reportBoth
     { HostedZones := [zoneZ1] } zoneZ1 [] domainA [domainB]
     (by decide) rfl rfl (by decide) rfl (by decide) (by decide)
     (Or.inr ⟨{ ResourceRecordSets := [recordA] }, "write refused", rfl, by decide, rfl⟩),
   by decide, by decide⟩

/-- C6: when standard input is empty, or `ParseRequest` fails, or the zone
listing fails, or it lists no zone named `hostedZone + "."`, or `NewDomains`
rejects the domain specs, `runWatcher` returns -1 (hence a non-zero result)
and has processed no domain: its trace holds no lookup, no write and no
notification, only, at most, the zone listing. -/
theorem C6_fatal_before_domains (env : Env)
    (h : env.stdin = [] ∨
      (∃ e, env.lib.ParseRequest env.stdin = .error e) ∨
      (∃ e, env.svc.ListHostedZonesByName { DNSName := env.hostedZone } = .error e) ∨
      (∃ resp, env.svc.ListHostedZonesByName { DNSName := env.hostedZone } = .ok resp ∧
        ∀ z ∈ resp.HostedZones, z.Name ≠ env.hostedZone ++ ".") ∨
      (∃ e, env.lib.NewDomains env.domains = .error e)) :
    (runWatcher env).1 = -1 ∧
    (runWatcher env).1 ≠ 0 ∧
    ((runWatcher env).2 = [] ∨
      (runWatcher env).2 = [Event.ListHostedZonesByName { DNSName := env.hostedZone }]) ∧
    (∀ ev ∈ (runWatcher env).2,
      ev.isLookup = false ∧ ev.isWrite = false ∧ ev.isNotify = false) := by
  have hshape : (runWatcher env).1 = -1 ∧
      ((runWatcher env).2 = [] ∨
        (runWatcher env).2 = [Event.ListHostedZonesByName { DNSName := env.hostedZone }]) := by
    unfold runWatcher
    cases hs : env.stdin with
    | nil => simp
    | cons b bs =>
      rw [hs] at h
      cases hparse : env.lib.ParseRequest (b :: bs) with
      | error e => simp
      | ok parsed =>
        cases hzones : env.svc.ListHostedZonesByName { DNSName := env.hostedZone } with
        | error e => simp [hzones]
        | ok resp =>
          cases htarget : findTarget env.hostedZone resp.HostedZones with
          | none => simp [hzones, htarget]
          | some target =>
            cases hmodels : env.lib.NewDomains env.domains with
            | error e => simp [hzones, htarget, hmodels]
            | ok models =>
              exfalso
              rcases h with h | ⟨e, h⟩ | ⟨e, h⟩ | ⟨resp', h, hnone⟩ | ⟨e, h⟩
              · simp at h
              · rw [hparse] at h; simp at h
              · rw [hzones] at h; simp at h
              · rw [hzones] at h
                injection h with h
                subst h
                have := findTarget_eq_none env.hostedZone resp.HostedZones hnone
                rw [this] at htarget
                simp at htarget
              · rw [hmodels] at h; simp at h
  refine ⟨hshape.1, ?_, hshape.2, ?_⟩
  · rw [hshape.1]; decide
  · intro ev hev
    rcases hshape.2 with h2 | h2
    · rw [h2] at hev; simp at hev
    · rw [h2] at hev
      simp at hev
      subst hev
      exact ⟨rfl, rfl, rfl⟩

/-- Scenario 3: with nothing on standard input the run returns -1 and makes no
call at all. -/
theorem C6_fatal_before_domains_witness :
    ((runWatcher scenarioEmptyInput).1 = -1 ∧
     (runWatcher scenarioEmptyInput).1 ≠ 0 ∧
     ((runWatcher scenarioEmptyInput).2 = [] ∨
       (runWatcher scenarioEmptyInput).2 =
         [Event.ListHostedZonesByName { DNSName := scenarioEmptyInput.hostedZone }]) ∧
     (∀ ev ∈ (runWatcher scenarioEmptyInput).2,
       ev.isLookup = false ∧ ev.isWrite = false ∧ ev.isNotify = false)) ∧
    runWatcher scenarioEmptyInput = (-1, []) :=
  ⟨C6_fatal_before_domains scenarioEmptyInput (Or.inl rfl), by decide⟩

/-- C7, as stated, fails: the run with an empty input and the run whose
non-empty input `ParseRequest` rejects return the same code, -1. -/
theorem C7_same_code_counterexample :
    scenarioEmptyInput.stdin = [] ∧
    scenarioMalformed.stdin ≠ [] ∧
    scenarioMalformed.lib.ParseRequest scenarioMalformed.stdin =
      .error "unexpected end of JSON input" ∧
    ¬ ((runWatcher scenarioEmptyInput).1 ≠ (runWatcher scenarioMalformed).1) :=
  ⟨rfl, by decide, rfl, by decide⟩

/-- C7, amended: a run with an empty input and a run whose non-empty input
`ParseRequest` rejects both return the one failure code -1, without any call to
the record store or to the notifier; the returned code does not tell them
apart. -/
theorem C7_empty_and_malformed_share_code (envEmpty envMalformed : Env) (e : String)
    (hempty : envEmpty.stdin = [])
    (hnonempty : envMalformed.stdin ≠ [])
    (hparse : envMalformed.lib.ParseRequest envMalformed.stdin = .error e) :
    runWatcher envEmpty = (-1, []) ∧
    runWatcher envMalformed = (-1, []) ∧
    (runWatcher envEmpty).1 = (runWatcher envMalformed).1 := by
  have h1 : runWatcher envEmpty = (-1, []) := by
    unfold runWatcher
    rw [hempty]
  have h2 : runWatcher envMalformed = (-1, []) := by
    unfold runWatcher
    cases hs : envMalformed.stdin with
    | nil => exact absurd hs hnonempty
    | cons b bs =>
      rw [hs] at hparse
      simp only [hparse]
  exact ⟨h1, h2, by rw [h1, h2]⟩

/-- The empty-input run and the malformed-input run both return -1. -/
theorem C7_empty_and_malformed_share_code_witness :
    runWatcher scenarioEmptyInput = (-1, []) ∧
    runWatcher scenarioMalformed = (-1, []) ∧
    (runWatcher scenarioEmptyInput).1 = (runWatcher scenarioMalformed).1 :=
  C7_empty_and_malformed_share_code scenarioEmptyInput scenarioMalformed
    "unexpected end of JSON input" rfl (by decide) rfl

/-- C8: the existing addresses are read from the first record set of the
lookup response only: they are empty for an empty response, the values of the
first record set, in order, when its type is "A", and empty otherwise,
whatever the record sets after the first are; and this list is the first
argument of the `NewDiff` call whose result decides the rest of the loop
body. -/
theorem C8_existing_from_first_record_set (env : Env) (req : Request) (target : HostedZone)
    (tr : List Event) (domain : Domain) (r2 : ListResourceRecordSetsOutput)
    (hips : env.lib.IPsByTag req domain.Tag ≠ [])
    (hlookup : env.svc.ListResourceRecordSets tr (lookupInput target domain) = .ok r2) :
    existingIPs [] = [] ∧
    (∀ first others, existingIPs (first :: others) =
      if first.Type_ = "A" then first.ResourceRecords.map (fun rr => rr.Value) else []) ∧
    (∀ first others others', existingIPs (first :: others) = existingIPs (first :: others')) ∧
    (∃ existing : List String,
      existing = (match r2.ResourceRecordSets.head? with
        | none => []
        | some first =>
          if first.Type_ = "A" then first.ResourceRecords.map (fun rr => rr.Value) else []) ∧
      handleDomain env req target tr domain =
        ((applyDiff env target (tr ++ [Event.ListResourceRecordSets (lookupInput target domain)])
            domain (env.lib.IPsByTag req domain.Tag)
            (env.lib.NewDiff existing (env.lib.IPsByTag req domain.Tag))).1,
         Event.ListResourceRecordSets (lookupInput target domain) ::
          (applyDiff env target
            (tr ++ [Event.ListResourceRecordSets (lookupInput target domain)])
            domain (env.lib.IPsByTag req domain.Tag)
            (env.lib.NewDiff existing (env.lib.IPsByTag req domain.Tag))).2)) := by
  refine ⟨rfl, existingIPs_cons, ?_, existingIPs r2.ResourceRecordSets, ?_,
    handleDomain_lookup_ok env req target tr domain r2 hips hlookup⟩
  · intro first others others'
    rw [existingIPs_cons, existingIPs_cons]
  · cases hsets : r2.ResourceRecordSets with
    | nil => rfl
    | cons first others => simp [existingIPs_cons]

/-- With a lookup answering `recordA` followed by a second "A" record set, the
existing addresses are those of `recordA` alone, so scenario 1 stays
unchanged; a first record set of type "CNAME" gives no existing address. -/
theorem C8_existing_from_first_record_set_witness :
    (existingIPs [] = [] ∧
     (∀ first others, existingIPs (first :: others) =
       if first.Type_ = "A" then first.ResourceRecords.map (fun rr => rr.Value) else []) ∧
     (∀ first others others', existingIPs (first :: others) = existingIPs (first :: others')) ∧
     (∃ existing : List String,
       existing = (match ({ ResourceRecordSets := [recordA, recordExtra] } :
           ListResourceRecordSetsOutput).ResourceRecordSets.head? with
         | none => []
         | some first =>
           if first.Type_ = "A" then first.ResourceRecords.map (fun rr => rr.Value) else []) ∧
       handleDomain scenarioTwoSets reportDup zoneZ1 [listZonesCall] domainA =
         ((applyDiff scenarioTwoSets zoneZ1
             ([listZonesCall] ++ [Event.ListResourceRecordSets (lookupInput zoneZ1 domainA)])
             domainA (scenarioTwoSets.lib.IPsByTag reportDup domainA.Tag)
             (scenarioTwoSets.lib.NewDiff existing
               (scenarioTwoSets.lib.IPsByTag reportDup domainA.Tag))).1,
          Event.ListResourceRecordSets (lookupInput zoneZ1 domainA) ::
           (applyDiff scenarioTwoSets zoneZ1
             ([listZonesCall] ++ [Event.ListResourceRecordSets (lookupInput zoneZ1 domainA)])
             domainA (scenarioTwoSets.lib.IPsByTag reportDup domainA.Tag)
             (scenarioTwoSets.lib.NewDiff existing
               (scenarioTwoSets.lib.IPsByTag reportDup domainA.Tag))).2))) ∧
    existingIPs [recordA, recordExtra] = ["1.2.3.4"] ∧
    existingIPs [recordAlias, recordA] = [] ∧
    runWatcher scenarioTwoSets = (0, [listZonesCall, lookupA]) :=
  ⟨C8_existing_from_first_record_set scenarioTwoSets reportDup zoneZ1 [listZonesCall] domainA
     { ResourceRecordSets := [recordA, recordExtra] } (by decide) rfl,
   by decide, by decide, by decide⟩

/-! ## The returned code -/

theorem runWatcher_empty (env : Env) (h : env.stdin = []) : runWatcher env = (-1, []) := by
  unfold runWatcher
  rw [h]

theorem runWatcher_parse_error (env : Env) (e : String) (hstdin : env.stdin ≠ [])
    (hparse : env.lib.ParseRequest env.stdin = .error e) : runWatcher env = (-1, []) := by
  unfold runWatcher
  cases hs : env.stdin with
  | nil => exact absurd hs hstdin
  | cons b bs =>
    rw [hs] at hparse
    simp only [hparse]

theorem runWatcher_zones_error (env : Env) (parsed : Request) (e : String)
    (hstdin : env.stdin ≠ [])
    (hparse : env.lib.ParseRequest env.stdin = .ok parsed)
    (hzones : env.svc.ListHostedZonesByName { DNSName := env.hostedZone } = .error e) :
    runWatcher env = (-1, [Event.ListHostedZonesByName { DNSName := env.hostedZone }]) := by
  unfold runWatcher
  cases hs : env.stdin with
  | nil => exact absurd hs hstdin
  | cons b bs =>
    rw [hs] at hparse
    simp only [hparse, hzones]

theorem runWatcher_no_target (env : Env) (parsed : Request)
    (resp : ListHostedZonesByNameOutput) (hstdin : env.stdin ≠ [])
    (hparse : env.lib.ParseRequest env.stdin = .ok parsed)
    (hzones : env.svc.ListHostedZonesByName { DNSName := env.hostedZone } = .ok resp)
    (htarget : findTarget env.hostedZone resp.HostedZones = none) :
    runWatcher env = (-1, [Event.ListHostedZonesByName { DNSName := env.hostedZone }]) := by
  unfold runWatcher
  cases hs : env.stdin with
  | nil => exact absurd hs hstdin
  | cons b bs =>
    rw [hs] at hparse
    simp only [hparse, hzones, htarget]

theorem runWatcher_domains_error (env : Env) (parsed : Request)
    (resp : ListHostedZonesByNameOutput) (target : HostedZone) (e : String)
    (hstdin : env.stdin ≠ [])
    (hparse : env.lib.ParseRequest env.stdin = .ok parsed)
    (hzones : env.svc.ListHostedZonesByName { DNSName := env.hostedZone } = .ok resp)
    (htarget : findTarget env.hostedZone resp.HostedZones = some target)
    (hmodels : env.lib.NewDomains env.domains = .error e) :
    runWatcher env = (-1, [Event.ListHostedZonesByName { DNSName := env.hostedZone }]) := by
  unfold runWatcher
  cases hs : env.stdin with
  | nil => exact absurd hs hstdin
  | cons b bs =>
    rw [hs] at hparse
    simp only [hparse, hzones, htarget, hmodels]

theorem callsSucceeded_append (svc : Route53) (hist first second : List Event) :
    callsSucceeded svc hist (first ++ second) =
      (callsSucceeded svc hist first && callsSucceeded svc (hist ++ first) second) := by
  induction first generalizing hist with
  | nil => simp [callsSucceeded]
  | cons ev evs ih => simp [callsSucceeded, ih, Bool.and_assoc]

theorem handleDomain_calls (env : Env) (req : Request) (target : HostedZone)
    (tr : List Event) (domain : Domain) :
    (handleDomain env req target tr domain).1 = none ↔
      callsSucceeded env.svc tr (handleDomain env req target tr domain).2 = true := by
  rcases handleDomain_cases env req target tr domain with
    ⟨_, h⟩ | ⟨_, _, hl, h⟩ | ⟨_, _, hl, _, h⟩ | ⟨_, _, _, hl, _, hw, h⟩ |
    ⟨_, _, _, hl, _, hw, h⟩
  all_goals rw [h]
  · simp [callsSucceeded]
  · simp [callsSucceeded, callSucceeded, hl, Except.toBool]
  · simp [callsSucceeded, callSucceeded, hl, Except.toBool]
  · simp [callsSucceeded, callSucceeded, hl, hw, Except.toBool]
  · simp [callsSucceeded, callSucceeded, hl, hw, Except.toBool]

theorem domainLoop_calls (env : Env) (req : Request) (target : HostedZone)
    (models : List Domain) (tr : List Event) :
    ∃ evs, (domainLoop env req target models tr).2 = tr ++ evs ∧
      ((domainLoop env req target models tr).1 = 0 ↔
        callsSucceeded env.svc tr evs = true) ∧
      ((domainLoop env req target models tr).1 = 0 ∨
        (domainLoop env req target models tr).1 = -1) := by
  induction models generalizing tr with
  | nil => exact ⟨[], by simp [domainLoop], by simp [domainLoop, callsSucceeded],
      Or.inl rfl⟩
  | cons domain rest ih =>
    have hcalls := handleDomain_calls env req target tr domain
    rcases hres : handleDomain env req target tr domain with ⟨ret, evs⟩
    rw [hres] at hcalls
    cases ret with
    | none =>
      rw [domainLoop_cons_next env req target tr domain rest evs hres]
      rcases ih (tr ++ evs) with ⟨evs', htrace, hcode, hrange⟩
      refine ⟨evs ++ evs', ?_, ?_, hrange⟩
      · rw [htrace, List.append_assoc]
      · rw [hcode, callsSucceeded_append]
        have hfirst : callsSucceeded env.svc tr evs = true := hcalls.mp rfl
        simp [hfirst]
    | some code =>
      rw [domainLoop_cons_return env req target tr domain rest code evs hres]
      have hcode := handleDomain_code env req target tr domain code evs hres
      subst hcode
      refine ⟨evs, rfl, ?_, Or.inr rfl⟩
      have hfailed : ¬ callsSucceeded env.svc tr evs = true := by
        intro hok
        have := hcalls.mpr hok
        simp at this
      simp [hfailed]

theorem handleDomain_withNotifier (env : Env)
    (notify : List Event → String → Diff → Except String Unit) (req : Request)
    (target : HostedZone) (tr : List Event) (domain : Domain) :
    handleDomain (withNotifier env notify) req target tr domain =
      handleDomain env req target tr domain := rfl

theorem domainLoop_withNotifier (env : Env)
    (notify : List Event → String → Diff → Except String Unit) (req : Request)
    (target : HostedZone) (domains : List Domain) (tr : List Event) :
    domainLoop (withNotifier env notify) req target domains tr =
      domainLoop env req target domains tr := by
  induction domains generalizing tr with
  | nil => rfl
  | cons first others ih =>
    simp only [domainLoop, handleDomain_withNotifier, ih]

theorem runWatcher_withNotifier (env : Env)
    (notify : List Event → String → Diff → Except String Unit) :
    runWatcher (withNotifier env notify) = runWatcher env := by
  unfold runWatcher
  simp only [domainLoop_withNotifier]
  rfl

/-- C9: `runWatcher` returns 0 exactly when the input is not empty, the report
parses, the zone listing succeeds and lists a zone named `hostedZone + "."`,
the domain specs are accepted and every call it makes to the record store is
answered without error; otherwise it returns -1.  The notifier does not
matter: with any other notifier the run returns the same code after the same
calls.  A skipped domain (no observed address) and an unchanged domain leave
the outcome to the rest of the loop. -/
theorem C9_exit_code (env : Env) :
    ((runWatcher env).1 = 0 ↔
      env.stdin ≠ [] ∧
      (∃ parsed, env.lib.ParseRequest env.stdin = .ok parsed) ∧
      (∃ resp, env.svc.ListHostedZonesByName { DNSName := env.hostedZone } = .ok resp ∧
        ∃ z ∈ resp.HostedZones, z.Name = env.hostedZone ++ ".") ∧
      (∃ models, env.lib.NewDomains env.domains = .ok models) ∧
      callsSucceeded env.svc [] (runWatcher env).2 = true) ∧
    ((runWatcher env).1 = 0 ∨ (runWatcher env).1 = -1) ∧
    (∀ notify, runWatcher (withNotifier env notify) = runWatcher env) ∧
    (∀ req target tr domain rest, env.lib.IPsByTag req domain.Tag = [] →
      domainLoop env req target (domain :: rest) tr = domainLoop env req target rest tr) ∧
    (∀ req target tr domain rest r2, env.lib.IPsByTag req domain.Tag ≠ [] →
      env.svc.ListResourceRecordSets tr (lookupInput target domain) = .ok r2 →
      env.lib.IsChanged (env.lib.NewDiff (existingIPs r2.ResourceRecordSets)
        (env.lib.IPsByTag req domain.Tag)) = false →
      domainLoop env req target (domain :: rest) tr =
        domainLoop env req target rest
          (tr ++ [Event.ListResourceRecordSets (lookupInput target domain)])) := by
  refine ⟨?_, ?_, runWatcher_withNotifier env, ?_, ?_⟩
  rotate_left 2
  · intro req target tr domain rest h
    simpa using domainLoop_skip_middle env req target [] domain rest tr h
  · intro req target tr domain rest r2 hips hlookup hunchanged
    apply domainLoop_cons_next
    rw [handleDomain_lookup_ok env req target tr domain r2 hips hlookup,
      applyDiff_unchanged _ _ _ _ _ _ hunchanged]
  · by_cases hstdin : env.stdin = []
    · rw [runWatcher_empty env hstdin]
      simp [hstdin]
    cases hparse : env.lib.ParseRequest env.stdin with
    | error e =>
      rw [runWatcher_parse_error env e hstdin hparse]
      simp
    | ok parsed =>
      cases hzones : env.svc.ListHostedZonesByName { DNSName := env.hostedZone } with
      | error e =>
        rw [runWatcher_zones_error env parsed e hstdin hparse hzones]
        simp
      | ok resp =>
        cases htarget : findTarget env.hostedZone resp.HostedZones with
        | none =>
          rw [runWatcher_no_target env parsed resp hstdin hparse hzones htarget]
          have hnone : ¬ ∃ z ∈ resp.HostedZones, z.Name = env.hostedZone ++ "." := by
            intro hex
            rcases (findTarget_isSome_iff env.hostedZone resp.HostedZones).mpr hex with ⟨t, ht⟩
            rw [ht] at htarget
            simp at htarget
          simp only [Except.ok.injEq, exists_eq_left']
          constructor
          · intro h; simp at h
          · rintro ⟨_, _, hz, _⟩
            exact absurd hz hnone
        | some target =>
          have hsome : ∃ z ∈ resp.HostedZones, z.Name = env.hostedZone ++ "." :=
            (findTarget_isSome_iff env.hostedZone resp.HostedZones).mp ⟨target, htarget⟩
          cases hmodels : env.lib.NewDomains env.domains with
          | error e =>
            rw [runWatcher_domains_error env parsed resp target e hstdin hparse hzones
              htarget hmodels]
            simp
          | ok models =>
            rw [runWatcher_eq_loop env parsed resp target models hstdin hparse hzones
              htarget hmodels]
            rcases domainLoop_calls env (overrideCheckID env.checkID parsed) target models
              [Event.ListHostedZonesByName { DNSName := env.hostedZone }] with
              ⟨evs, htrace, hcode, _⟩
            rw [hcode, htrace, callsSucceeded_append]
            have hlisting : callsSucceeded env.svc []
                [Event.ListHostedZonesByName { DNSName := env.hostedZone }] = true := by
              simp [callsSucceeded, callSucceeded, hzones, Except.toBool]
            simp only [hlisting, Bool.true_and, List.nil_append]
            constructor
            · intro h
              exact ⟨hstdin, ⟨parsed, rfl⟩, ⟨resp, rfl, hsome⟩, ⟨models, rfl⟩, h⟩
            · rintro ⟨_, _, _, _, h⟩
              exact h
  · by_cases hstdin : env.stdin = []
    · rw [runWatcher_empty env hstdin]; exact Or.inr rfl
    cases hparse : env.lib.ParseRequest env.stdin with
    | error e => rw [runWatcher_parse_error env e hstdin hparse]; exact Or.inr rfl
    | ok parsed =>
      cases hzones : env.svc.ListHostedZonesByName { DNSName := env.hostedZone } with
      | error e =>
        rw [runWatcher_zones_error env parsed e hstdin hparse hzones]; exact Or.inr rfl
      | ok resp =>
        cases htarget : findTarget env.hostedZone resp.HostedZones with
        | none =>
          rw [runWatcher_no_target env parsed resp hstdin hparse hzones htarget]
          exact Or.inr rfl
        | some target =>
          cases hmodels : env.lib.NewDomains env.domains with
          | error e =>
            rw [runWatcher_domains_error env parsed resp target e hstdin hparse hzones
              htarget hmodels]
            exact Or.inr rfl
          | ok models =>
            rw [runWatcher_eq_loop env parsed resp target models hstdin hparse hzones
              htarget hmodels]
            rcases domainLoop_calls env (overrideCheckID env.checkID parsed) target models
              [Event.ListHostedZonesByName { DNSName := env.hostedZone }] with
              ⟨_, _, _, hrange⟩
            exact hrange

/-- In `scenarioSkip` the first domain is skipped and the second is written:
the run returns 0; in scenario 4 the write fails and the run returns -1. -/
theorem C9_exit_code_witness :
    ((runWatcher scenarioSkip).1 = 0 ∨ (runWatcher scenarioSkip).1 = -1) ∧
    domainLoop scenarioSkip reportTwo zoneZ1 (domainB :: [domainA]) [listZonesCall] =
      domainLoop scenarioSkip reportTwo zoneZ1 [domainA] [listZonesCall] ∧
    (runWatcher scenarioSkip).1 = 0 ∧
    (runWatcher scenario1).1 = 0 ∧
    (runWatcher scenarioWriteFails).1 = -1 :=
  ⟨(C9_exit_code scenarioSkip).2.1,
   (C9_exit_code scenarioSkip).2.2.2.1 reportTwo zoneZ1 [listZonesCall] domainB [domainA]
     (by decide),
   by decide, by decide, by decide⟩

/-! ## The written address list -/

theorem map_value_recordsOf (ips : List String) :
    (recordsOf ips).map (fun rr => rr.Value) = ips := by
  rw [recordsOf_eq_map, List.map_map]
  simp [Function.comp_def]

/-- C10, as stated, fails with the tag selection of the specification: the
report of scenario 1 lists `1.2.3.4` twice for `svc-a`, and against a store
without a record the run writes the list `[1.2.3.4, 1.2.3.4]`, which repeats
an address; and two reports listing the same two addresses in different orders
make the run write them in different orders. -/
theorem C10_written_list_counterexample :
    scenarioDupNew.lib.IPsByTag reportDup domainA.Tag = ["1.2.3.4", "1.2.3.4"] ∧
    writtenAddresses (runWatcher scenarioDupNew).2 = [["1.2.3.4", "1.2.3.4"]] ∧
    ¬ (∀ l ∈ writtenAddresses (runWatcher scenarioDupNew).2, l.Nodup) ∧
    writtenAddresses (runWatcher scenarioTwoNew).2 = [["1.2.3.4", "5.6.7.8"]] ∧
    writtenAddresses (runWatcher scenarioSwappedNew).2 = [["5.6.7.8", "1.2.3.4"]] := by
  refine ⟨by decide, by decide, ?_, by decide, by decide⟩
  have hwritten : writtenAddresses (runWatcher scenarioDupNew).2 =
      [["1.2.3.4", "1.2.3.4"]] := by decide
  rw [hwritten]
  decide

/-- C10, amended: for every changed domain the loop body writes one address
list, and it is the list `IPsByTag` returned for the domain's tag, address for
address: same order, same repetitions.  It is free of duplicates exactly when
the list returned by `IPsByTag` is. -/
theorem C10_written_list_is_observed_list (env : Env) (req : Request) (target : HostedZone)
    (tr : List Event) (domain : Domain) (r2 : ListResourceRecordSetsOutput)
    (hips : env.lib.IPsByTag req domain.Tag ≠ [])
    (hlookup : env.svc.ListResourceRecordSets tr (lookupInput target domain) = .ok r2)
    (hchanged : env.lib.IsChanged (env.lib.NewDiff (existingIPs r2.ResourceRecordSets)
      (env.lib.IPsByTag req domain.Tag)) = true) :
    writtenAddresses (handleDomain env req target tr domain).2 =
      [env.lib.IPsByTag req domain.Tag] ∧
    ((∀ l ∈ writtenAddresses (handleDomain env req target tr domain).2, l.Nodup) ↔
      (env.lib.IPsByTag req domain.Tag).Nodup) := by
  have hbody := handleDomain_lookup_ok env req target tr domain r2 hips hlookup
  have hwritten : writtenAddresses (handleDomain env req target tr domain).2 =
      [env.lib.IPsByTag req domain.Tag] := by
    cases hwrite : env.svc.ChangeResourceRecordSets
        (tr ++ [Event.ListResourceRecordSets (lookupInput target domain)])
        (upsertInput target domain (env.lib.IPsByTag req domain.Tag)) with
    | error e =>
      rw [hbody, applyDiff_write_error _ _ _ _ _ _ e hchanged hwrite]
      simp [writtenAddresses, upsertInput, map_value_recordsOf]
    | ok r3 =>
      rw [hbody, applyDiff_write_ok _ _ _ _ _ _ r3 hchanged hwrite]
      simp [writtenAddresses, upsertInput, map_value_recordsOf]
  refine ⟨hwritten, ?_⟩
  rw [hwritten]
  simp

/-- With the report of scenario 2 against a store without a record, the list
written is the observed list `[1.2.3.4, 5.6.7.8]`. -/
theorem C10_written_list_is_observed_list_witness :
    (writtenAddresses (handleDomain scenarioTwoNew reportTwo zoneZ1 [listZonesCall] domainA).2 =
       [scenarioTwoNew.lib.IPsByTag reportTwo domainA.Tag] ∧
     ((∀ l ∈ writtenAddresses
          (handleDomain scenarioTwoNew reportTwo zoneZ1 [listZonesCall] domainA).2, l.Nodup) ↔
       (scenarioTwoNew.lib.IPsByTag reportTwo domainA.Tag).Nodup)) ∧
    scenarioTwoNew.lib.IPsByTag reportTwo domainA.Tag = ["1.2.3.4", "5.6.7.8"] :=
  ⟨C10_written_list_is_observed_list scenarioTwoNew reportTwo zoneZ1 [listZonesCall] domainA
     { ResourceRecordSets := [] } (by decide) rfl (by decide),
   by decide⟩

end Collector
